import Mathlib

/-!
Verification development for the `data-explorer` email-verification engine
(`src/services/email_verifier.py`).

The Python code is shallowly embedded: pure string manipulation is translated
to executable Lean functions on `String`/`List Char`; the network-facing calls
(DNS MX resolution via `dns.resolver`, SMTP dialogues via `smtplib`) are
modelled by explicit outcome oracles passed to the pipeline; the CSV layer is
modelled on pre-parsed tables (`List (List String)`).  Character-level string
operations (`strip`, `lower`, the `re` pattern, `email.utils.parseaddr`) are
modelled over the ASCII repertoire that the repository's data exercises.
-/

namespace DataExplorer

/-! ## Python string primitives -/

/-- ASCII whitespace, as recognised by Python's `str.strip` and the `\s`
class of the verifier's regular expression (restricted to ASCII). -/
def isPySpace (c : Char) : Bool :=
  c == ' ' || c == '\t' || c == '\n' || c == '\r' || c == '\x0b' || c == '\x0c'

def pyStripList (l : List Char) : List Char :=
  ((l.dropWhile isPySpace).reverse.dropWhile isPySpace).reverse

/-- Model of Python `str.strip()` (no arguments: strips whitespace). -/
def pyStrip (s : String) : String := String.mk (pyStripList s.data)

/-- Model of Python `str.lower()` on the ASCII repertoire. -/
def pyLower (s : String) : String := String.mk (s.data.map Char.toLower)

/-- Model of Python `str.rstrip(".")`: remove every trailing dot. -/
def pyRstripDot (s : String) : String :=
  String.mk ((s.data.reverse.dropWhile (fun c => c == '.')).reverse)

/-- Model of Python's `c in s` membership test for a single character. -/
def strHas (s : String) (c : Char) : Bool := s.data.contains c

/-- Split a character list at the first occurrence of `c`; `none` when `c`
does not occur.  Used to model `str.split(sep, 1)`. -/
def pySplitFirst (c : Char) : List Char → Option (List Char × List Char)
  | [] => none
  | x :: xs =>
    if x = c then some ([], xs)
    else
      match pySplitFirst c xs with
      | none => none
      | some p => some (x :: p.1, p.2)

/-- Everything after the first `'@'`; models `email.split("@", 1)[1]` on the
pipeline path where the syntax check has already guaranteed an `'@'`. -/
def afterFirstAt (s : String) : String :=
  match pySplitFirst '@' s.data with
  | some p => String.mk p.2
  | none => s

/-- Character class `[^@\s]` of `EMAIL_REGEX`. -/
def isEmailWordChar (c : Char) : Bool := !(c == '@') && !(isPySpace c)

/-- Model of `EMAIL_REGEX = re.compile(r"^[^@\s]+@[^@\s]+\.[^@\s]+$")` applied
with `.match` (anchored at both ends by the pattern).  A string matches iff it
splits at its unique `'@'` into a non-empty run of `[^@\s]` characters and a
tail of `[^@\s]` characters that contains an interior dot. -/
def EMAIL_REGEX_match (s : String) : Bool :=
  match pySplitFirst '@' s.data with
  | none => false
  | some p =>
    !p.1.isEmpty && p.1.all isEmailWordChar && p.2.all isEmailWordChar &&
      ((p.2.drop 1).dropLast).contains '.'

/-! ## CPython `email._parseaddr` (the engine behind `email.utils.parseaddr`)

Ported function-by-function from `email/_parseaddr.py` (class
`AddrlistClass`).  The parser state carries the field, the cursor and the
comment list; the `while` loops become fuel-indexed recursion (the fuel given
by `parseaddr` dominates the number of loop steps the Python code performs on
the same input). -/

structure AP where
  field : List Char
  pos : Nat
  comments : List String
deriving Repr

def AP.atEnd (s : AP) : Bool := s.field.length ≤ s.pos

def AP.cur (s : AP) : Char := s.field.getD s.pos ' '

def AP.adv (s : AP) : AP := { s with pos := s.pos + 1 }

def specialsChars : List Char := ['(', ')', '<', '>', '@', ',', ':', ';', '.', '"', '[', ']']

def lwsChars : List Char := [' ', '\t']

def crChars : List Char := ['\r', '\n']

def fwsChars : List Char := lwsChars ++ crChars

def atomendsChars : List Char := specialsChars ++ lwsChars ++ crChars

def phraseendsChars : List Char := atomendsChars.filter (fun c => c ≠ '.')

/-- Model of `email._parseaddr.quote`: double every backslash, escape every
double quote. -/
def pyQuote (s : String) : String :=
  String.mk (s.data.foldr (fun c acc =>
    (if c = '\\' then ['\\', '\\']
     else if c = '"' then ['\\', '"'] else [c]) ++ acc) [])

mutual

/-- Port of `AddrlistClass.getdelimited`. -/
def getdelimited : Nat → Char → List Char → Bool → AP → String × AP
  | 0, _, _, _, s => ("", s)
  | fuel + 1, beginchar, endchars, allowcomments, s =>
    if s.atEnd ∨ s.cur ≠ beginchar then ("", s)
    else delimLoop fuel endchars allowcomments false "" s.adv

/-- The `while` loop of `getdelimited`; `quoteFlag` is its `quote` local. -/
def delimLoop : Nat → List Char → Bool → Bool → String → AP → String × AP
  | 0, _, _, _, acc, s => (acc, s)
  | fuel + 1, endchars, allowcomments, quoteFlag, acc, s =>
    if s.atEnd then (acc, s)
    else
      let c := s.cur
      if quoteFlag then delimLoop fuel endchars allowcomments false (acc.push c) s.adv
      else if endchars.contains c then (acc, s.adv)
      else if allowcomments ∧ c = '(' then
        let p := getdelimited fuel '(' [')', '\r'] true s
        delimLoop fuel endchars allowcomments false (acc ++ p.1) p.2
      else if c = '\\' then delimLoop fuel endchars allowcomments true acc s.adv
      else delimLoop fuel endchars allowcomments false (acc.push c) s.adv

end

/-- Port of `AddrlistClass.getcomment`. -/
def getcomment (fuel : Nat) (s : AP) : String × AP :=
  getdelimited fuel '(' [')', '\r'] true s

/-- Port of `AddrlistClass.getquote`. -/
def getquote (fuel : Nat) (s : AP) : String × AP :=
  getdelimited fuel '"' ['"', '\r'] false s

/-- Port of `AddrlistClass.getdomainliteral`. -/
def getdomainliteral (fuel : Nat) (s : AP) : String × AP :=
  let p := getdelimited fuel '[' [']', '\r'] false s
  ("[" ++ p.1 ++ "]", p.2)

/-- Port of `AddrlistClass.gotonext`: skip whitespace, collect comments,
return the skipped linear whitespace. -/
def gotonext : Nat → String → AP → String × AP
  | 0, ws, s => (ws, s)
  | fuel + 1, ws, s =>
    if s.atEnd then (ws, s)
    else
      let c := s.cur
      if lwsChars.contains c ∨ c = '\n' ∨ c = '\r' then
        gotonext fuel (if c = '\n' ∨ c = '\r' then ws else ws.push c) s.adv
      else if c = '(' then
        let p := getcomment fuel s
        gotonext fuel ws { p.2 with comments := p.2.comments ++ [p.1] }
      else (ws, s)

/-- Port of `AddrlistClass.getatom` with an explicit end-delimiter set. -/
def getatom : Nat → List Char → String → AP → String × AP
  | 0, _, acc, s => (acc, s)
  | fuel + 1, aends, acc, s =>
    if s.atEnd then (acc, s)
    else if aends.contains s.cur then (acc, s)
    else getatom fuel aends (acc.push s.cur) s.adv

/-- Port of `AddrlistClass.getdomain`. -/
def getdomain : Nat → String → AP → String × AP
  | 0, acc, s => (acc, s)
  | fuel + 1, acc, s =>
    if s.atEnd then (acc, s)
    else
      let c := s.cur
      if lwsChars.contains c then getdomain fuel acc s.adv
      else if c = '(' then
        let p := getcomment fuel s
        getdomain fuel acc { p.2 with comments := p.2.comments ++ [p.1] }
      else if c = '[' then
        let p := getdomainliteral fuel s
        getdomain fuel (acc ++ p.1) p.2
      else if c = '.' then getdomain fuel (acc ++ ".") s.adv
      else if c = '@' then ("", s)
      else if atomendsChars.contains c then (acc, s)
      else
        let p := getatom fuel atomendsChars "" s
        getdomain fuel (acc ++ p.1) p.2

/-- Python `aslist and not aslist[-1].strip()`. -/
def lastIsBlank (aslist : List String) : Bool :=
  match aslist.getLast? with
  | some a => pyStrip a == ""
  | none => false

/-- The conditional `aslist.pop()` of `getaddrspec`. -/
def dropLastIfBlank (aslist : List String) : List String :=
  if lastIsBlank aslist then aslist.dropLast else aslist

/-- The `while` loop of `AddrlistClass.getaddrspec`. -/
def addrspecLoop : Nat → List String → AP → List String × AP
  | 0, aslist, s => (aslist, s)
  | fuel + 1, aslist, s =>
    if s.atEnd then (aslist, s)
    else
      let c := s.cur
      if c = '.' then
        let aslist := dropLastIfBlank aslist ++ ["."]
        let p := gotonext fuel "" s.adv
        addrspecLoop fuel aslist p.2
      else if c = '"' then
        let q := getquote fuel s
        let aslist := aslist ++ ["\"" ++ pyQuote q.1 ++ "\""]
        let p := gotonext fuel "" q.2
        addrspecLoop fuel (if p.1 ≠ "" then aslist ++ [p.1] else aslist) p.2
      else if atomendsChars.contains c then (dropLastIfBlank aslist, s)
      else
        let a := getatom fuel atomendsChars "" s
        let aslist := aslist ++ [a.1]
        let p := gotonext fuel "" a.2
        addrspecLoop fuel (if p.1 ≠ "" then aslist ++ [p.1] else aslist) p.2

/-- Port of `AddrlistClass.getaddrspec`. -/
def getaddrspec (fuel : Nat) (s : AP) : String × AP :=
  let g := gotonext fuel "" s
  let l := addrspecLoop fuel [] g.2
  let s1 := l.2
  if s1.atEnd ∨ s1.cur ≠ '@' then (String.join l.1, s1)
  else
    let g2 := gotonext fuel "" s1.adv
    let d := getdomain fuel "" g2.2
    if d.1 = "" then ("", d.2)
    else (String.join l.1 ++ "@" ++ d.1, d.2)

/-- The `while` loop of `AddrlistClass.getphraselist`. -/
def phraseLoop : Nat → List String → AP → List String × AP
  | 0, plist, s => (plist, s)
  | fuel + 1, plist, s =>
    if s.atEnd then (plist, s)
    else
      let c := s.cur
      if fwsChars.contains c then phraseLoop fuel plist s.adv
      else if c = '"' then
        let q := getquote fuel s
        phraseLoop fuel (plist ++ [q.1]) q.2
      else if c = '(' then
        let p := getcomment fuel s
        phraseLoop fuel plist { p.2 with comments := p.2.comments ++ [p.1] }
      else if phraseendsChars.contains c then (plist, s)
      else
        let a := getatom fuel phraseendsChars "" s
        phraseLoop fuel (plist ++ [a.1]) a.2

/-- The `while` loop of `AddrlistClass.getrouteaddr`. -/
def routeLoop : Nat → Bool → String → AP → String × AP
  | 0, _, adlist, s => (adlist, s)
  | fuel + 1, expectroute, adlist, s =>
    if s.atEnd then (adlist, s)
    else if expectroute then
      let d := getdomain fuel "" s
      let g := gotonext fuel "" d.2
      routeLoop fuel false adlist g.2
    else if s.cur = '>' then (adlist, s.adv)
    else if s.cur = '@' then
      let g := gotonext fuel "" s.adv
      routeLoop fuel true adlist g.2
    else if s.cur = ':' then
      let g := gotonext fuel "" s.adv
      routeLoop fuel false adlist g.2
    else
      let a := getaddrspec fuel s
      (a.1, a.2.adv)

/-- Port of `AddrlistClass.getrouteaddr`. -/
def getrouteaddr (fuel : Nat) (s : AP) : String × AP :=
  if s.atEnd ∨ s.cur ≠ '<' then ("", s)
  else
    let g := gotonext fuel "" s.adv
    routeLoop fuel false "" g.2

/-- Python `' '.join` over the collected phrase or comment lists. -/
def joinSpace (l : List String) : String := String.intercalate " " l

mutual

/-- Port of `AddrlistClass.getaddress`. -/
def getaddress : Nat → AP → List (String × String) × AP
  | 0, s => ([], s)
  | fuel + 1, s =>
    let g := gotonext fuel "" { s with comments := [] }
    let s1 := g.2
    let oldpos := s1.pos
    let oldcl := s1.comments
    let ph := phraseLoop fuel [] s1
    let plist := ph.1
    let g2 := gotonext fuel "" ph.2
    let s2 := g2.2
    let r :=
      if s2.atEnd then
        if plist.isEmpty then (([] : List (String × String)), s2)
        else ([(joinSpace s2.comments, plist.headD "")], s2)
      else if s2.cur = '.' ∨ s2.cur = '@' then
        let a := getaddrspec fuel { s2 with pos := oldpos, comments := oldcl }
        ([(joinSpace a.2.comments, a.1)], a.2)
      else if s2.cur = ':' then
        groupLoop fuel [] s2.adv
      else if s2.cur = '<' then
        let ra := getrouteaddr fuel s2
        let s3 := ra.2
        if s3.comments.isEmpty then ([(joinSpace plist, ra.1)], s3)
        else ([(joinSpace plist ++ " (" ++ joinSpace s3.comments ++ ")", ra.1)], s3)
      else
        if plist.isEmpty then
          if specialsChars.contains s2.cur then (([] : List (String × String)), s2.adv)
          else (([] : List (String × String)), s2)
        else ([(joinSpace s2.comments, plist.headD "")], s2)
    let g3 := gotonext fuel "" r.2
    let s4 := g3.2
    if ¬ s4.atEnd ∧ s4.cur = ',' then (r.1, s4.adv) else (r.1, s4)

/-- The group (`':'`) loop of `getaddress`. -/
def groupLoop : Nat → List (String × String) → AP → List (String × String) × AP
  | 0, acc, s => (acc, s)
  | fuel + 1, acc, s =>
    if s.atEnd then (acc, s)
    else
      let g := gotonext fuel "" s
      let s1 := g.2
      if ¬ s1.atEnd ∧ s1.cur = ';' then (acc, s1.adv)
      else
        let a := getaddress fuel s1
        groupLoop fuel (acc ++ a.1) a.2

end

/-- Port of `AddrlistClass.getaddrlist`. -/
def getaddrlist : Nat → List (String × String) → AP → List (String × String)
  | 0, acc, _ => acc
  | fuel + 1, acc, s =>
    if s.atEnd then acc
    else
      let a := getaddress fuel s
      getaddrlist fuel (acc ++ (if a.1.isEmpty then [("", "")] else a.1)) a.2

/-- Port of `email.utils.parseaddr`: first parsed (realname, address) pair, or
`("", "")` when parsing yields nothing.  The fuel bounds every loop step the
Python parser performs on the same field. -/
def parseaddr (addr : String) : String × String :=
  if addr = "" then ("", "")
  else
    match getaddrlist (8 * addr.length + 64) [] { field := addr.data, pos := 0, comments := [] } with
    | [] => ("", "")
    | a :: _ => a

/-! ## The verifier's data model and per-address pipeline
(`src/services/email_verifier.py`) -/

/-- The `ValidationResult` dataclass. -/
structure ValidationResult where
  email : String
  syntax_valid : Bool
  has_mx_record : Bool
  smtp_checked : Bool
  smtp_status : String
  smtp_code : Option Int
  smtp_message : String
  overall_status : String
deriving Repr, DecidableEq

/-- Port of `EmailVerifier._is_valid_syntax_check`. -/
def is_valid_syntax_check (email : String) : Bool :=
  let addr := (parseaddr email).2
  if addr = "" ∨ strHas addr '@' = false then false
  else if EMAIL_REGEX_match addr = false then false
  else true

/-- Outcome of the `dns.resolver` MX query in `_lookup_mx_records`: either an
answer (the raw `str(rdata.exchange)` strings, possibly with the root-label
dot) or one of the five exception classes the method catches. -/
inductive DnsOutcome
  | answer (records : List String)
  | noAnswer
  | nxdomain
  | timeoutExpired
  | noNameservers
  | yxdomain
deriving Repr, DecidableEq

/-- Port of `EmailVerifier._lookup_mx_records`, with the network call replaced
by its outcome: every caught resolution failure yields `[]`, and each answered
exchange name goes through `str(...).rstrip(".")`. -/
def lookup_mx_records (outcome : DnsOutcome) : List String :=
  match outcome with
  | .answer records => records.map pyRstripDot
  | _ => []

/-- Outcome of the `RCPT TO` step of one SMTP host dialogue: an exception
(caught by `_check_smtp`) or a reply `(code, message)`. -/
inductive RcptStep
  | exn
  | reply (code : Int) (message : String)
deriving Repr, DecidableEq

/-- Outcome of one host's SMTP dialogue in `_check_smtp`: an exception at
connect / EHLO-HELO / `MAIL FROM` time (all caught), or a `MAIL FROM` reply
code together with what the `RCPT TO` step would yield. -/
inductive HostOutcome
  | exn
  | mailReply (code : Int) (rcpt : RcptStep)
deriving Repr, DecidableEq

/-- Port of `EmailVerifier._check_smtp`, instrumented: the second component
lists the hosts actually contacted, in order.  `net` gives each host's
dialogue outcome. -/
def check_smtp_trace (local_email : String) (net : String → HostOutcome) :
    List String → ValidationResult × List String
  | [] =>
    ({ email := local_email, syntax_valid := true, has_mx_record := true,
       smtp_checked := true, smtp_status := "unknown", smtp_code := none,
       smtp_message := "All MX hosts failed or returned ambiguous responses",
       overall_status := "unknown" }, [])
  | mx :: rest =>
    match net mx with
    | .exn =>
      let p := check_smtp_trace local_email net rest
      (p.1, mx :: p.2)
    | .mailReply mcode rcpt =>
      if mcode < 200 ∨ 300 ≤ mcode then
        let p := check_smtp_trace local_email net rest
        (p.1, mx :: p.2)
      else
        match rcpt with
        | .exn =>
          let p := check_smtp_trace local_email net rest
          (p.1, mx :: p.2)
        | .reply code message =>
          if 200 ≤ code ∧ code < 300 then
            ({ email := local_email, syntax_valid := true, has_mx_record := true,
               smtp_checked := true, smtp_status := "valid", smtp_code := some code,
               smtp_message := message, overall_status := "valid" }, [mx])
          else if 500 ≤ code ∧ code < 600 then
            ({ email := local_email, syntax_valid := true, has_mx_record := true,
               smtp_checked := true, smtp_status := "invalid", smtp_code := some code,
               smtp_message := message, overall_status := "invalid_smtp" }, [mx])
          else
            let p := check_smtp_trace local_email net rest
            (p.1, mx :: p.2)

/-- Port of `EmailVerifier._check_smtp` (result only). -/
def check_smtp (local_email : String) (net : String → HostOutcome)
    (mx_hosts : List String) : ValidationResult :=
  (check_smtp_trace local_email net mx_hosts).1

/-- The network environment a run executes against: the DNS oracle maps
`(domain, timeout)` to the resolver outcome, and the SMTP oracle maps
`(email, host, timeout)` to that host's dialogue outcome. -/
structure Env where
  dns : String → Int → DnsOutcome
  smtp : String → String → Int → HostOutcome

/-- Result of one pipeline invocation together with the externally observable
network activity: the MX domain queried (if any) and the SMTP hosts
contacted, in order. -/
structure PipelineTrace where
  result : ValidationResult
  dns_query : Option String
  contacted : List String
deriving Repr

/-- Port of `EmailVerifier.validate_email_address`, instrumented with the
network activity it performs. -/
def validate_trace (env : Env) (email : String) (enable_smtp : Bool)
    (timeout : Int) : PipelineTrace :=
  let clean_email := pyLower (pyStrip email)
  if clean_email = "" then
    { result := { email := clean_email, syntax_valid := false, has_mx_record := false,
                  smtp_checked := false, smtp_status := "invalid", smtp_code := none,
                  smtp_message := "Empty email", overall_status := "invalid_syntax" },
      dns_query := none, contacted := [] }
  else if is_valid_syntax_check clean_email = false then
    { result := { email := clean_email, syntax_valid := false, has_mx_record := false,
                  smtp_checked := false, smtp_status := "invalid", smtp_code := none,
                  smtp_message := "Invalid syntax", overall_status := "invalid_syntax" },
      dns_query := none, contacted := [] }
  else
    let domain := afterFirstAt clean_email
    let mx_records := lookup_mx_records (env.dns domain timeout)
    if mx_records.isEmpty then
      { result := { email := clean_email, syntax_valid := true, has_mx_record := false,
                    smtp_checked := false, smtp_status := "unknown", smtp_code := none,
                    smtp_message := "No MX records found", overall_status := "no_mx" },
        dns_query := some domain, contacted := [] }
    else if enable_smtp = false then
      { result := { email := clean_email, syntax_valid := true, has_mx_record := true,
                    smtp_checked := false, smtp_status := "skipped", smtp_code := none,
                    smtp_message := "SMTP check disabled", overall_status := "valid_dns_only" },
        dns_query := some domain, contacted := [] }
    else
      let p := check_smtp_trace clean_email (fun h => env.smtp clean_email h timeout) mx_records
      { result := p.1, dns_query := some domain, contacted := p.2 }

/-- Port of `EmailVerifier.validate_email_address`. -/
def validate_email_address (env : Env) (email : String) (enable_smtp : Bool)
    (timeout : Int) : ValidationResult :=
  (validate_trace env email enable_smtp timeout).result

/-! ## CSV input loading and bulk orchestration

The CSV file is modelled as the table the `csv` module parses it into: a list
of rows, each a list of cell strings (a blank line parses to `[]`). -/

/-- Lookup in the row dictionary `csv.DictReader` builds: `dict(zip(fieldnames,
row))`, then `restval = None` for fieldnames beyond the row's length; a later
assignment to the same key overwrites an earlier one.  `none` models both a
missing key and a `None` value (the code collapses both via `or ""`). -/
def dictReaderGet (fieldnames row : List String) (key : String) : Option String :=
  (((fieldnames.zip row).map (fun p => (p.1, some p.2))) ++
      ((fieldnames.drop row.length).map (fun k => (k, (none : Option String))))).foldl
    (fun acc p => if p.1 = key then p.2 else acc) none

def dedupGo : List String → List String → List String
  | _, [] => []
  | seen, x :: xs => if x ∈ seen then dedupGo seen xs else x :: dedupGo (x :: seen) xs

/-- The seen-set deduplication loop of `_load_emails_from_csv`: keep the first
occurrence of each value, preserving order. -/
def dedup_first_seen (l : List String) : List String := dedupGo [] l

/-- Port of `EmailVerifier._load_emails_from_csv`.  `.error` is the
`ValueError` raised when the table has no header row or columns
(`reader.fieldnames` empty or absent); `csv.DictReader` skips rows parsed as
`[]`. -/
def load_emails_from_csv (rows : List (List String)) : Except String (List String) :=
  match rows with
  | [] => .error "CSV appears to have no header row or columns"
  | fieldnames :: body =>
    if fieldnames.isEmpty then .error "CSV appears to have no header row or columns"
    else
      let email_key := fieldnames.headD ""
      let emails := (body.filter (fun r => !r.isEmpty)).filterMap (fun row =>
        let value := pyStrip ((dictReaderGet fieldnames row email_key).getD "")
        if value = "" then none else some value)
      .ok (dedup_first_seen emails)

/-- The two exception kinds a bulk run can surface to its caller: the
`ValueError` from input loading, and the `AttributeError` raised by the
attribute lookup `self.write_results_to_csv` (the class only defines
`_write_results_to_csv`). -/
inductive PyExc
  | valueError (msg : String)
  | attributeError (attr : String)
deriving Repr, DecidableEq

/-- The result-collection phase of `process_emails_in_bulk` (lines 211-235):
load, dispatch one pipeline run per unique address, and collect.  Collection
order is abstracted to submission order (`as_completed` yields a permutation
of it); `interrupt_after = some k` models a `KeyboardInterrupt` arriving after
`k` results were collected — the `except KeyboardInterrupt` handler swallows
it and the already-collected results remain. -/
def bulk_collected_results (env : Env) (rows : List (List String))
    (enable_smtp : Bool) (timeout : Int) (interrupt_after : Option Nat) :
    Except PyExc (List ValidationResult) :=
  match load_emails_from_csv rows with
  | .error m => .error (.valueError m)
  | .ok emails =>
    let collected :=
      match interrupt_after with
      | none => emails
      | some k => emails.take k
    .ok (collected.map (fun e => validate_email_address env e enable_smtp timeout))

/-- Port of `EmailVerifier.process_emails_in_bulk`.  After collection the
source executes `self.write_results_to_csv(output_path, results)`; no such
attribute exists on `EmailVerifier` (the method defined at line 177 is
`_write_results_to_csv`), so Python raises `AttributeError` there on every
path that reaches the write step, before any output or summary is produced. -/
def process_emails_in_bulk (env : Env) (rows : List (List String))
    (enable_smtp : Bool) (timeout : Int) (interrupt_after : Option Nat) :
    Except PyExc Unit :=
  match bulk_collected_results env rows enable_smtp timeout interrupt_after with
  | .error e => .error e
  | .ok _results => .error (.attributeError "write_results_to_csv")

/-! ## Derived notions used by the claims -/

/-- Does a hostname still end in the DNS root-label dot. -/
def hasTrailingDot (s : String) : Bool := s.data.getLast? == some '.'

/-- A host on which `_check_smtp` concludes: the `MAIL FROM` reply is in
200-299 and the `RCPT TO` reply code is in 200-299 or 500-599. -/
def Conclusive (net : String → HostOutcome) (host : String) : Prop :=
  ∃ mcode code message, net host = .mailReply mcode (.reply code message) ∧
    200 ≤ mcode ∧ mcode < 300 ∧ ((200 ≤ code ∧ code < 300) ∨ (500 ≤ code ∧ code < 600))

/-! ## Helper lemmas -/

lemma pyRstripDot_no_trailing_dot (s : String) : hasTrailingDot (pyRstripDot s) = false := by
  unfold hasTrailingDot pyRstripDot
  simp only [List.getLast?_reverse]
  cases h : (s.data.reverse.dropWhile (fun c => c == '.')).head? with
  | none => simp [h]
  | some c =>
    have hc := List.head?_dropWhile_not (fun c => c == '.') s.data.reverse
    rw [h] at hc
    simp at hc
    simp [h, hc]

lemma check_smtp_trace_email (e : String) (net : String → HostOutcome)
    (hosts : List String) : (check_smtp_trace e net hosts).1.email = e := by
  induction hosts with
  | nil => rfl
  | cons mx rest ih =>
    simp only [check_smtp_trace]
    cases net mx with
    | exn => simpa using ih
    | mailReply mcode rcpt =>
      by_cases h1 : mcode < 200 ∨ 300 ≤ mcode
      · simpa [h1] using ih
      · cases rcpt with
        | exn => simpa [h1] using ih
        | reply code message =>
          by_cases h2 : 200 ≤ code ∧ code < 300
          · simp [h1, h2]
          · by_cases h3 : 500 ≤ code ∧ code < 600
            · simp [h1, h2, h3]
            · simpa [h1, h2, h3] using ih

lemma validate_email_field (env : Env) (e : String) (es : Bool) (t : Int) :
    (validate_email_address env e es t).email = pyLower (pyStrip e) := by
  simp only [validate_email_address, validate_trace]
  repeat' split
  all_goals first | rfl | exact check_smtp_trace_email _ _ _

lemma check_smtp_trace_skip (e : String) (net : String → HostOutcome)
    (mx : String) (rest : List String) (h : ¬ Conclusive net mx) :
    check_smtp_trace e net (mx :: rest) =
      ((check_smtp_trace e net rest).1, mx :: (check_smtp_trace e net rest).2) := by
  simp only [check_smtp_trace]
  cases hmx : net mx with
  | exn => rfl
  | mailReply mcode rcpt =>
    by_cases h1 : mcode < 200 ∨ 300 ≤ mcode
    · simp [h1]
    · cases rcpt with
      | exn => simp [h1]
      | reply code message =>
        have h2 : ¬ (200 ≤ code ∧ code < 300) := fun hc =>
          h ⟨mcode, code, message, hmx, by omega, by omega, Or.inl hc⟩
        have h3 : ¬ (500 ≤ code ∧ code < 600) := fun hc =>
          h ⟨mcode, code, message, hmx, by omega, by omega, Or.inr hc⟩
        simp [h1, h2, h3]

lemma check_smtp_trace_exhausted (e : String) (net : String → HostOutcome)
    (hosts : List String) (h : ∀ x ∈ hosts, ¬ Conclusive net x) :
    check_smtp_trace e net hosts =
      ({ email := e, syntax_valid := true, has_mx_record := true,
         smtp_checked := true, smtp_status := "unknown", smtp_code := none,
         smtp_message := "All MX hosts failed or returned ambiguous responses",
         overall_status := "unknown" }, hosts) := by
  induction hosts with
  | nil => rfl
  | cons mx rest ih =>
    rw [check_smtp_trace_skip e net mx rest (h mx (by simp)),
      ih (fun x hx => h x (by simp [hx]))]

/-! ## Claim C5 -/

/-- C5: for every domain and timeout, `_lookup_mx_records` returns an empty
list (it never raises) on any of the resolution failures it distinguishes —
empty answer, no answer, NXDOMAIN, resolver timeout, no nameservers, or a
YXDOMAIN/malformed response — and every hostname it does return is the raw
exchange name with all trailing root-label dots stripped, hence ends in no
dot. -/
theorem C5_mx_failures_empty_and_trailing_dots_stripped :
    (lookup_mx_records .noAnswer = [] ∧ lookup_mx_records .nxdomain = [] ∧
      lookup_mx_records .timeoutExpired = [] ∧ lookup_mx_records .noNameservers = [] ∧
      lookup_mx_records .yxdomain = [] ∧ lookup_mx_records (.answer []) = [])
    ∧ (∀ records, lookup_mx_records (.answer records) = records.map pyRstripDot)
    ∧ (∀ outcome : DnsOutcome,
        (lookup_mx_records outcome).all (fun h => !(hasTrailingDot h)) = true) := by
  refine ⟨⟨rfl, rfl, rfl, rfl, rfl, rfl⟩, fun records => rfl, fun outcome => ?_⟩
  cases outcome with
  | answer records =>
    simp only [lookup_mx_records, List.all_eq_true, List.mem_map]
    rintro h ⟨r, -, rfl⟩
    simp [pyRstripDot_no_trailing_dot]
  | noAnswer => rfl
  | nxdomain => rfl
  | timeoutExpired => rfl
  | noNameservers => rfl
  | yxdomain => rfl

/-! ## Claim C9 -/

/-- C9: bulk deduplication compares raw trimmed input strings before the
pipeline lower-cases them: the input table with rows `A@x.com` and `a@x.com`
keeps both as distinct unique addresses, and the collection phase produces two
`ValidationResult`s whose normalized `email` fields coincide. -/
theorem C9_dedup_precedes_normalization :
    load_emails_from_csv [["email"], ["A@x.com"], ["a@x.com"]] = .ok ["A@x.com", "a@x.com"]
    ∧ ∀ (env : Env) (es : Bool) (t : Int),
        bulk_collected_results env [["email"], ["A@x.com"], ["a@x.com"]] es t none =
          .ok [validate_email_address env "A@x.com" es t,
               validate_email_address env "a@x.com" es t]
        ∧ (validate_email_address env "A@x.com" es t).email =
            (validate_email_address env "a@x.com" es t).email := by
  refine ⟨rfl, fun env es t => ⟨rfl, ?_⟩⟩
  rw [validate_email_field, validate_email_field]
  decide

/-! ## Claim C3 -/

/-- C3: `_check_smtp` walks the MX hosts in order and stops at the first host
whose `RCPT TO` reply code is conclusive — 200-299 yields status `valid` with
that code, 500-599 yields status `invalid` with that code — contacting no
subsequent host; if every host is exhausted without a conclusive reply it
returns status `unknown`, no code, and the diagnostic message noting that all
hosts failed or were ambiguous. -/
theorem C3_probe_stops_at_first_conclusive_host (email : String)
    (net : String → HostOutcome) :
    (∀ hosts : List String, (∀ x ∈ hosts, ¬ Conclusive net x) →
      check_smtp_trace email net hosts =
        ({ email := email, syntax_valid := true, has_mx_record := true,
           smtp_checked := true, smtp_status := "unknown", smtp_code := none,
           smtp_message := "All MX hosts failed or returned ambiguous responses",
           overall_status := "unknown" }, hosts))
    ∧ (∀ (pre : List String) (host : String) (post : List String)
        (mcode code : Int) (message : String),
        (∀ x ∈ pre, ¬ Conclusive net x) →
        net host = .mailReply mcode (.reply code message) →
        200 ≤ mcode → mcode < 300 →
        ((200 ≤ code ∧ code < 300) ∨ (500 ≤ code ∧ code < 600)) →
        check_smtp_trace email net (pre ++ host :: post) =
          (if 200 ≤ code ∧ code < 300 then
            { email := email, syntax_valid := true, has_mx_record := true,
              smtp_checked := true, smtp_status := "valid", smtp_code := some code,
              smtp_message := message, overall_status := "valid" }
           else
            { email := email, syntax_valid := true, has_mx_record := true,
              smtp_checked := true, smtp_status := "invalid", smtp_code := some code,
              smtp_message := message, overall_status := "invalid_smtp" },
           pre ++ [host])) := by
  constructor
  · exact fun hosts h => check_smtp_trace_exhausted email net hosts h
  · intro pre host post mcode code message hpre hnet hm1 hm2 hcode
    induction pre with
    | nil =>
      simp only [List.nil_append, check_smtp_trace, hnet]
      have h1 : ¬ (mcode < 200 ∨ 300 ≤ mcode) := by omega
      rcases hcode with h2 | h2
      · simp [h1, h2]
      · have h3 : ¬ (200 ≤ code ∧ code < 300) := by omega
        simp [h1, h2, h3]
    | cons mx rest ih =>
      rw [List.cons_append,
        check_smtp_trace_skip email net mx (rest ++ host :: post) (hpre mx (by simp)),
        ih (fun x hx => hpre x (by simp [hx]))]
      simp

/-- Concrete SMTP network used by the probe witnesses: `mx1` fails with an
exception, `mx2` answers `MAIL FROM` 250 and `RCPT TO` 550. -/
def netW : String → HostOutcome := fun host =>
  if host = "mx1" then .exn
  else if host = "mx2" then .mailReply 250 (.reply 550 "user unknown")
  else .mailReply 250 (.reply 250 "ok")

lemma netW_mx1_not_conclusive : ¬ Conclusive netW "mx1" := by
  rintro ⟨mcode, code, message, heq, -⟩
  simp [netW] at heq

/-- Witness for C3: on hosts `[mx1, mx2, mx3]` the probe skips the failing
`mx1`, concludes `invalid` at `mx2` with code 550 without contacting `mx3`;
on `[mx1]` alone it exhausts and returns `unknown` with no code. -/
theorem C3_witness :
    check_smtp_trace "u@e.com" netW ["mx1", "mx2", "mx3"] =
      ({ email := "u@e.com", syntax_valid := true, has_mx_record := true,
         smtp_checked := true, smtp_status := "invalid", smtp_code := some 550,
         smtp_message := "user unknown", overall_status := "invalid_smtp" },
       ["mx1", "mx2"])
    ∧ check_smtp_trace "u@e.com" netW ["mx1"] =
      ({ email := "u@e.com", syntax_valid := true, has_mx_record := true,
         smtp_checked := true, smtp_status := "unknown", smtp_code := none,
         smtp_message := "All MX hosts failed or returned ambiguous responses",
         overall_status := "unknown" }, ["mx1"]) := by
  constructor
  · have h := (C3_probe_stops_at_first_conclusive_host "u@e.com" netW).2
      ["mx1"] "mx2" ["mx3"] 250 550 "user unknown"
      (by intro x hx; simp at hx; subst hx; exact netW_mx1_not_conclusive)
      (by rfl) (by omega) (by omega) (Or.inr (by omega))
    rw [if_neg (by omega)] at h
    simpa using h
  · have h := (C3_probe_stops_at_first_conclusive_host "u@e.com" netW).1
      ["mx1"] (by intro x hx; simp at hx; subst hx; exact netW_mx1_not_conclusive)
    simpa using h

/-! ## Claim C2 -/

/-- The §4.4 mapping from the SMTP probe's own status to the pipeline's
terminal classification: `valid → valid`, `invalid → invalid_smtp`, anything
else (i.e. `unknown`) unchanged. -/
def probe_status_map (s : String) : String :=
  if s = "valid" then "valid" else if s = "invalid" then "invalid_smtp" else s

lemma check_smtp_trace_overall_map (e : String) (net : String → HostOutcome)
    (hosts : List String) :
    (check_smtp_trace e net hosts).1.overall_status =
      probe_status_map (check_smtp_trace e net hosts).1.smtp_status := by
  induction hosts with
  | nil => rfl
  | cons mx rest ih =>
    simp only [check_smtp_trace]
    cases net mx with
    | exn => simpa using ih
    | mailReply mcode rcpt =>
      by_cases h1 : mcode < 200 ∨ 300 ≤ mcode
      · simpa [h1] using ih
      · cases rcpt with
        | exn => simpa [h1] using ih
        | reply code message =>
          by_cases h2 : 200 ≤ code ∧ code < 300
          · simp [h1, h2, probe_status_map]
          · by_cases h3 : 500 ≤ code ∧ code < 600
            · simp [h1, h2, h3, probe_status_map]
            · simpa [h1, h2, h3] using ih

lemma check_smtp_trace_smtp_checked (e : String) (net : String → HostOutcome)
    (hosts : List String) : (check_smtp_trace e net hosts).1.smtp_checked = true := by
  induction hosts with
  | nil => rfl
  | cons mx rest ih =>
    simp only [check_smtp_trace]
    cases net mx with
    | exn => simpa using ih
    | mailReply mcode rcpt =>
      by_cases h1 : mcode < 200 ∨ 300 ≤ mcode
      · simpa [h1] using ih
      · cases rcpt with
        | exn => simpa [h1] using ih
        | reply code message =>
          by_cases h2 : 200 ≤ code ∧ code < 300
          · simp [h1, h2]
          · by_cases h3 : 500 ≤ code ∧ code < 600
            · simp [h1, h2, h3]
            · simpa [h1, h2, h3] using ih

/-- C2: for every address, `enableSmtp` flag, timeout and network behaviour,
`overall_status` is exactly the §4.4 state machine: empty after trim or
failed syntax check gives `invalid_syntax`; no resolved MX host gives
`no_mx` with no SMTP host contacted; hosts resolved with SMTP disabled gives
`valid_dns_only` with `smtp_checked = false`; hosts resolved with SMTP
enabled gives the probe's status mapped through `probe_status_map`.  SMTP
hosts are contacted only on the final path, and `smtp_checked` holds exactly
there. -/
theorem C2_overall_status_state_machine (env : Env) (email : String)
    (enable_smtp : Bool) (timeout : Int) :
    let clean := pyLower (pyStrip email)
    let mx := lookup_mx_records (env.dns (afterFirstAt clean) timeout)
    let net := fun h => env.smtp clean h timeout
    ((validate_email_address env email enable_smtp timeout).overall_status =
      (if clean = "" then "invalid_syntax"
       else if is_valid_syntax_check clean = false then "invalid_syntax"
       else if mx = [] then "no_mx"
       else if enable_smtp = false then "valid_dns_only"
       else probe_status_map (check_smtp clean net mx).smtp_status))
    ∧ ((validate_trace env email enable_smtp timeout).contacted =
      (if clean ≠ "" ∧ is_valid_syntax_check clean = true ∧ mx ≠ [] ∧ enable_smtp = true then
        (check_smtp_trace clean net mx).2
       else []))
    ∧ ((validate_email_address env email enable_smtp timeout).smtp_checked =
      (!(clean == "") && is_valid_syntax_check clean && !mx.isEmpty && enable_smtp)) := by
  intro clean mx net
  simp only [clean, mx, net, validate_email_address, validate_trace, check_smtp]
  by_cases h1 : pyLower (pyStrip email) = ""
  · simp [h1]
  · by_cases h2 : is_valid_syntax_check (pyLower (pyStrip email)) = false
    · simp [h1, h2]
    · have h2' : is_valid_syntax_check (pyLower (pyStrip email)) = true := by
        cases h : is_valid_syntax_check (pyLower (pyStrip email)) with
        | false => exact absurd h h2
        | true => rfl
      by_cases h3 :
          lookup_mx_records (env.dns (afterFirstAt (pyLower (pyStrip email))) timeout) = []
      · simp [h1, h2, h2', h3]
      · by_cases h4 : enable_smtp = false
        · simp [h1, h2, h2', h3, h4]
        · have h4' : enable_smtp = true := by
            cases h : enable_smtp with
            | false => exact absurd h h4
            | true => rfl
          simp [h1, h2, h2', h3, h4, h4',
            check_smtp_trace_overall_map, check_smtp_trace_smtp_checked]

/-! ## Claim C8 -/

lemma check_smtp_trace_code_source (e : String) (net : String → HostOutcome)
    (hosts : List String) :
    (∀ code : Int, (check_smtp_trace e net hosts).1.smtp_code = some code →
      ∃ host mcode message, host ∈ (check_smtp_trace e net hosts).2 ∧
        net host = .mailReply mcode (.reply code message) ∧
        200 ≤ mcode ∧ mcode < 300 ∧
        ((200 ≤ code ∧ code < 300) ∨ (500 ≤ code ∧ code < 600)))
    ∧ ((check_smtp_trace e net hosts).1.overall_status = "valid" ∨
       (check_smtp_trace e net hosts).1.overall_status = "invalid_smtp" ∨
       ((check_smtp_trace e net hosts).1.overall_status = "unknown" ∧
        (check_smtp_trace e net hosts).1.smtp_code = none)) := by
  induction hosts with
  | nil => exact ⟨fun code h => by simp [check_smtp_trace] at h, Or.inr (Or.inr ⟨rfl, rfl⟩)⟩
  | cons mx rest ih =>
    simp only [check_smtp_trace]
    cases hmx : net mx with
    | exn =>
      refine ⟨fun code h => ?_, by simpa using ih.2⟩
      simp only at h
      obtain ⟨host, mcode, message, hmem, hrest⟩ := ih.1 code h
      exact ⟨host, mcode, message, by simp [hmem], hrest⟩
    | mailReply mcode rcpt =>
      by_cases h1 : mcode < 200 ∨ 300 ≤ mcode
      · refine ⟨fun code h => ?_, by simpa [h1] using ih.2⟩
        simp only [h1, if_true] at h
        obtain ⟨host, mc, message, hmem, hrest⟩ := ih.1 code h
        exact ⟨host, mc, message, by simp [h1, hmem], hrest⟩
      · cases rcpt with
        | exn =>
          refine ⟨fun code h => ?_, by simpa [h1] using ih.2⟩
          simp only [h1, if_false] at h
          obtain ⟨host, mc, message, hmem, hrest⟩ := ih.1 code h
          exact ⟨host, mc, message, by simp [h1, hmem], hrest⟩
        | reply code message =>
          by_cases h2 : 200 ≤ code ∧ code < 300
          · refine ⟨fun c h => ?_, by simp [h1, h2]⟩
            simp only [h1, h2, if_false, if_true] at h
            have hc : c = code := by simpa using h.symm
            subst hc
            exact ⟨mx, mcode, message, by simp [h1, h2], hmx, by omega, by omega, Or.inl h2⟩
          · by_cases h3 : 500 ≤ code ∧ code < 600
            · refine ⟨fun c h => ?_, by simp [h1, h2, h3]⟩
              simp only [h1, h2, h3, if_false, if_true] at h
              have hc : c = code := by simpa using h.symm
              subst hc
              exact ⟨mx, mcode, message, by simp [h1, h2, h3], hmx, by omega, by omega, Or.inr h3⟩
            · refine ⟨fun c h => ?_, by simpa [h1, h2, h3] using ih.2⟩
              simp only [h1, h2, h3, if_false] at h
              obtain ⟨host, mc, msg, hmem, hrest⟩ := ih.1 c h
              exact ⟨host, mc, msg, by simp [h1, h2, h3, hmem], hrest⟩

/-- C8: in every `ValidationResult` the pipeline produces, `smtp_code` is
present only when `smtp_checked` is true and a conclusive `RCPT TO` reply was
actually received from a contacted host (carrying exactly that code); on every
other terminal — `invalid_syntax`, `no_mx`, `valid_dns_only`, and probe
exhaustion (`unknown`) — `smtp_code` is absent. -/
theorem C8_smtp_code_only_with_conclusive_reply (env : Env) (email : String)
    (enable_smtp : Bool) (timeout : Int) :
    (∀ code : Int,
      (validate_email_address env email enable_smtp timeout).smtp_code = some code →
      (validate_email_address env email enable_smtp timeout).smtp_checked = true ∧
      ∃ host mcode message,
        host ∈ (validate_trace env email enable_smtp timeout).contacted ∧
        env.smtp (pyLower (pyStrip email)) host timeout =
          .mailReply mcode (.reply code message) ∧
        200 ≤ mcode ∧ mcode < 300 ∧
        ((200 ≤ code ∧ code < 300) ∨ (500 ≤ code ∧ code < 600)))
    ∧ ((validate_email_address env email enable_smtp timeout).overall_status = "invalid_syntax" ∨
       (validate_email_address env email enable_smtp timeout).overall_status = "no_mx" ∨
       (validate_email_address env email enable_smtp timeout).overall_status = "valid_dns_only" ∨
       (validate_email_address env email enable_smtp timeout).overall_status = "unknown" →
      (validate_email_address env email enable_smtp timeout).smtp_code = none) := by
  simp only [validate_email_address]
  by_cases h1 : pyLower (pyStrip email) = ""
  · have hval : (validate_trace env email enable_smtp timeout).result.smtp_code = none ∧
        (validate_trace env email enable_smtp timeout).result.overall_status =
          "invalid_syntax" := by
      simp [validate_trace, h1]
    exact ⟨fun code hcode => absurd (hval.1 ▸ hcode) (by simp), fun _ => hval.1⟩
  · by_cases h2 : is_valid_syntax_check (pyLower (pyStrip email)) = false
    · have hval : (validate_trace env email enable_smtp timeout).result.smtp_code = none := by
        simp [validate_trace, h1, h2]
      exact ⟨fun code hcode => absurd (hval ▸ hcode) (by simp), fun _ => hval⟩
    · by_cases h3 :
          (lookup_mx_records (env.dns (afterFirstAt (pyLower (pyStrip email))) timeout)).isEmpty
      · have hval : (validate_trace env email enable_smtp timeout).result.smtp_code = none := by
          simp [validate_trace, h1, h2, h3]
        exact ⟨fun code hcode => absurd (hval ▸ hcode) (by simp), fun _ => hval⟩
      · by_cases h4 : enable_smtp = false
        · have hval : (validate_trace env email enable_smtp timeout).result.smtp_code = none := by
            simp [validate_trace, h1, h2, h3, h4]
          exact ⟨fun code hcode => absurd (hval ▸ hcode) (by simp), fun _ => hval⟩
        · have hval : validate_trace env email enable_smtp timeout =
              { result := (check_smtp_trace (pyLower (pyStrip email))
                  (fun h => env.smtp (pyLower (pyStrip email)) h timeout)
                  (lookup_mx_records
                    (env.dns (afterFirstAt (pyLower (pyStrip email))) timeout))).1,
                dns_query := some (afterFirstAt (pyLower (pyStrip email))),
                contacted := (check_smtp_trace (pyLower (pyStrip email))
                  (fun h => env.smtp (pyLower (pyStrip email)) h timeout)
                  (lookup_mx_records
                    (env.dns (afterFirstAt (pyLower (pyStrip email))) timeout))).2 } := by
            simp [validate_trace, h1, h2, h3, h4]
          have hsrc := check_smtp_trace_code_source (pyLower (pyStrip email))
            (fun h => env.smtp (pyLower (pyStrip email)) h timeout)
            (lookup_mx_records (env.dns (afterFirstAt (pyLower (pyStrip email))) timeout))
          have hchk := check_smtp_trace_smtp_checked (pyLower (pyStrip email))
            (fun h => env.smtp (pyLower (pyStrip email)) h timeout)
            (lookup_mx_records (env.dns (afterFirstAt (pyLower (pyStrip email))) timeout))
          rw [hval]
          refine ⟨fun code hcode => ⟨hchk, hsrc.1 code hcode⟩, fun hterm => ?_⟩
          rcases hsrc.2 with hv | hv | hv
          · rcases hterm with h | h | h | h <;> rw [hv] at h <;> simp at h
          · rcases hterm with h | h | h | h <;> rw [hv] at h <;> simp at h
          · exact hv.2

/-- Concrete environment for the C8 witness: one MX host `mx` (returned by
DNS with a root dot), whose dialogue concludes `RCPT TO` 550. -/
def envW : Env :=
  { dns := fun _ _ => .answer ["mx."],
    smtp := fun _ host _ =>
      if host = "mx" then .mailReply 250 (.reply 550 "user unknown") else .exn }

/-- Concrete environment for the C8 witness: DNS always fails with NXDOMAIN. -/
def envNoMx : Env := { dns := fun _ _ => .nxdomain, smtp := fun _ _ _ => .exn }

/-- Witness for C8: a run with a conclusive 550 reply has `smtp_code = 550`,
`smtp_checked` true, and a contacted host carrying that reply; a `no_mx` run
has `smtp_code` absent. -/
theorem C8_witness :
    (validate_email_address envW "u@e.com" true 5).smtp_code = some 550 ∧
    (validate_email_address envW "u@e.com" true 5).smtp_checked = true ∧
    (∃ host mcode message,
      host ∈ (validate_trace envW "u@e.com" true 5).contacted ∧
      envW.smtp (pyLower (pyStrip "u@e.com")) host 5 =
        .mailReply mcode (.reply 550 message) ∧
      200 ≤ mcode ∧ mcode < 300 ∧
      ((200 ≤ (550 : Int) ∧ (550 : Int) < 300) ∨ (500 ≤ (550 : Int) ∧ (550 : Int) < 600))) ∧
    (validate_email_address envNoMx "u@e.com" true 5).overall_status = "no_mx" ∧
    (validate_email_address envNoMx "u@e.com" true 5).smtp_code = none := by
  have hcode : (validate_email_address envW "u@e.com" true 5).smtp_code = some 550 := by rfl
  have h1 := (C8_smtp_code_only_with_conclusive_reply envW "u@e.com" true 5).1 550 hcode
  have hnomx : (validate_email_address envNoMx "u@e.com" true 5).overall_status = "no_mx" := by rfl
  have h2 := (C8_smtp_code_only_with_conclusive_reply envNoMx "u@e.com" true 5).2
    (Or.inr (Or.inl hnomx))
  exact ⟨hcode, h1.1, h1.2, hnomx, h2⟩

/-! ## Claim C10 -/

/-- C10: the domain handed to MX resolution is always the substring of the
full normalized input after its first `'@'` — never recomputed from the
parsed address.  For the display-name form `name <a@b.com>` the syntax check
passes via the parsed address `a@b.com`, yet the pipeline queries `b.com>`
(the tail of the whole input), a different domain string from the `b.com` the
syntax check validated. -/
theorem C10_display_name_resolves_wrong_domain :
    (∀ (env : Env) (email : String) (enable_smtp : Bool) (timeout : Int),
      (validate_trace env email enable_smtp timeout).dns_query =
        (if pyLower (pyStrip email) = "" then none
         else if is_valid_syntax_check (pyLower (pyStrip email)) = false then none
         else some (afterFirstAt (pyLower (pyStrip email)))))
    ∧ pyLower (pyStrip "name <a@b.com>") = "name <a@b.com>"
    ∧ is_valid_syntax_check "name <a@b.com>" = true
    ∧ (parseaddr "name <a@b.com>").2 = "a@b.com"
    ∧ afterFirstAt "name <a@b.com>" = "b.com>"
    ∧ afterFirstAt "a@b.com" = "b.com"
    ∧ ("b.com>" : String) ≠ "b.com" := by
  refine ⟨fun env email es t => ?_, rfl, rfl, rfl, rfl, rfl, by decide⟩
  simp only [validate_trace]
  by_cases h1 : pyLower (pyStrip email) = ""
  · simp [h1]
  · by_cases h2 : is_valid_syntax_check (pyLower (pyStrip email)) = false
    · simp [h1, h2]
    · simp only [h1, h2, if_false]
      repeat' split
      all_goals rfl

/-! ## Claim C6 -/

/-- Counterexample to C6: `_is_valid_syntax_check` accepts the display-name form
`name <a@b.com>` although the whole address does not match `EMAIL_REGEX`
(the pattern is applied to the parsed address, not to the whole input). -/
theorem C6_counterexample :
    is_valid_syntax_check "name <a@b.com>" = true ∧
    EMAIL_REGEX_match "name <a@b.com>" = false := ⟨rfl, rfl⟩

lemma EMAIL_REGEX_match_dot (s : String) (h : EMAIL_REGEX_match s = true) :
    (afterFirstAt s).data.contains '.' = true := by
  unfold EMAIL_REGEX_match at h
  cases hs : pySplitFirst '@' s.data with
  | none => rw [hs] at h; simp at h
  | some p =>
    rw [hs] at h
    simp only [Bool.and_eq_true] at h
    have hdot : '.' ∈ (p.2.drop 1).dropLast := by
      have := h.2
      simpa using this
    unfold afterFirstAt
    rw [hs]
    have : '.' ∈ p.2 := List.drop_subset 1 p.2 (List.dropLast_subset _ hdot)
    simpa using this

/-- C6 (amended): `_is_valid_syntax_check` is a pure total Boolean function; it
returns true exactly when address-header parsing yields a non-empty address
containing `'@'` and that parsed address (not the whole input) matches
`EMAIL_REGEX`; in particular it returns false on blank input and whenever
the parsed address lacks `'@'` or lacks a dot after its first `'@'`. -/
theorem C6_amended_syntax_check_on_parsed_address :
    (∀ email : String,
      is_valid_syntax_check email =
        (!((parseaddr email).2 == "") && strHas (parseaddr email).2 '@' &&
          EMAIL_REGEX_match (parseaddr email).2))
    ∧ (∀ email : String, is_valid_syntax_check email = true →
        (parseaddr email).2 ≠ "" ∧ strHas (parseaddr email).2 '@' = true ∧
        ((afterFirstAt (parseaddr email).2).data.contains '.') = true)
    ∧ is_valid_syntax_check "" = false := by
  have hmain : ∀ email : String,
      is_valid_syntax_check email =
        (!((parseaddr email).2 == "") && strHas (parseaddr email).2 '@' &&
          EMAIL_REGEX_match (parseaddr email).2) := by
    intro email
    simp only [is_valid_syntax_check]
    by_cases ha : (parseaddr email).2 = ""
    · simp [ha, strHas]
    · by_cases hb : strHas (parseaddr email).2 '@' = false
      · simp [ha, hb]
      · have hb' : strHas (parseaddr email).2 '@' = true := by
          cases h : strHas (parseaddr email).2 '@' with
          | false => exact absurd h hb
          | true => rfl
        by_cases hc : EMAIL_REGEX_match (parseaddr email).2 = false
        · simp [ha, hb, hb', hc]
        · have hc' : EMAIL_REGEX_match (parseaddr email).2 = true := by
            cases h : EMAIL_REGEX_match (parseaddr email).2 with
            | false => exact absurd h hc
            | true => rfl
          simp [ha, hb, hb', hc, hc']
  refine ⟨hmain, fun email hv => ?_, rfl⟩
  rw [hmain email] at hv
  simp only [Bool.and_eq_true, Bool.not_eq_true'] at hv
  refine ⟨by simpa using hv.1.1, hv.1.2, EMAIL_REGEX_match_dot _ hv.2⟩

/-- Witness for the amended C6: `a@b.com` is accepted, and its parsed address
is non-empty, contains `'@'` and has a dot after the `'@'`. -/
theorem C6_amended_witness :
    is_valid_syntax_check "a@b.com" = true ∧
    ((parseaddr "a@b.com").2 ≠ "" ∧ strHas (parseaddr "a@b.com").2 '@' = true ∧
      ((afterFirstAt (parseaddr "a@b.com").2).data.contains '.') = true) :=
  ⟨rfl, C6_amended_syntax_check_on_parsed_address.2.1 "a@b.com" rfl⟩

/-! ## Claim C7 -/

/-- Input loading as the spec words it: read the first column, trim each
value, skip blanks, deduplicate preserving first-seen order. -/
def load_first_column_spec (rows : List (List String)) : List String :=
  match rows with
  | [] => []
  | _header :: body =>
    dedup_first_seen ((body.filter (fun r => !r.isEmpty)).filterMap (fun row =>
      let value := pyStrip (row.headD "")
      if value = "" then none else some value))

/-- Counterexample to C7: with the duplicated header `e,e`, the loader reads
the last column named `e` (the `DictReader` dictionary keeps the last value
for a repeated key), not the first column. -/
theorem C7_counterexample :
    load_emails_from_csv [["e", "e"], ["a@x.com", "b@y.com"]] = .ok ["b@y.com"] ∧
    load_first_column_spec [["e", "e"], ["a@x.com", "b@y.com"]] = ["a@x.com"] ∧
    (["b@y.com"] : List String) ≠ ["a@x.com"] := ⟨rfl, rfl, by decide⟩

lemma foldl_assign_skip (k : String) (ps : List (String × Option String))
    (acc : Option String) (h : ∀ p ∈ ps, p.1 ≠ k) :
    ps.foldl (fun acc p => if p.1 = k then p.2 else acc) acc = acc := by
  induction ps generalizing acc with
  | nil => rfl
  | cons p ps ih =>
    simp only [List.foldl_cons]
    rw [if_neg (h p (by simp))]
    exact ih acc (fun q hq => h q (by simp [hq]))

lemma dictReaderGet_unique (k : String) (rest row : List String) (hk : k ∉ rest) :
    dictReaderGet (k :: rest) row k = row.head? := by
  cases row with
  | nil =>
    simp only [dictReaderGet, List.zip_nil_right, List.map_nil, List.nil_append,
      List.length_nil, List.drop_zero, List.map_cons, List.foldl_cons, if_pos rfl, if_true]
    rw [foldl_assign_skip k _ none]
    · rfl
    · intro p hp
      obtain ⟨r, hr, rfl⟩ := List.mem_map.mp hp
      exact fun hrk => hk (hrk ▸ hr)
  | cons v vs =>
    simp only [dictReaderGet, List.zip_cons_cons, List.map_cons, List.cons_append,
      List.foldl_cons, if_pos rfl, if_true, List.length_cons, List.drop_succ_cons]
    rw [foldl_assign_skip k _ (some v)]
    · rfl
    · intro p hp
      rcases List.mem_append.mp hp with hp | hp
      · obtain ⟨q, hq, rfl⟩ := List.mem_map.mp hp
        exact fun hqk => hk (hqk ▸ (List.of_mem_zip hq).1)
      · obtain ⟨r, hr, rfl⟩ := List.mem_map.mp hp
        exact fun hrk => hk (hrk ▸ List.drop_subset _ _ hr)

/-- C7 (amended): loading reads the column whose header equals the first
column's header name — the last such column when that name is duplicated —
trims each value, skips blanks, and deduplicates preserving first-seen order.
When no later column shares the first header name this is exactly the
first-column behaviour the spec describes, and the spec's example holds:
rows `a@x.com`, blank, `a@x.com`, `b@y.com` yield `[a@x.com, b@y.com]`. -/
theorem C7_amended_first_column_when_header_unique
    (k : String) (rest : List String) (body : List (List String)) (hk : k ∉ rest) :
    load_emails_from_csv ((k :: rest) :: body) =
      .ok (load_first_column_spec ((k :: rest) :: body))
    ∧ load_emails_from_csv [["email"], ["a@x.com"], [""], ["a@x.com"], ["b@y.com"]] =
      .ok ["a@x.com", "b@y.com"] := by
  refine ⟨?_, rfl⟩
  simp only [load_emails_from_csv, load_first_column_spec, List.isEmpty_cons,
    Bool.false_eq_true, if_false, List.headD_cons, Except.ok.injEq]
  congr 1
  apply List.filterMap_congr
  intro row hrow
  rw [dictReaderGet_unique k rest row hk]
  cases row with
  | nil => rfl
  | cons v vs => rfl

/-- Witness for the amended C7: the single unique header `email` makes
loading read the first column, and the spec's deduplication example holds. -/
theorem C7_amended_witness :
    load_emails_from_csv [["email"], ["a@x.com"], [""], ["a@x.com"], ["b@y.com"]] =
      .ok (load_first_column_spec [["email"], ["a@x.com"], [""], ["a@x.com"], ["b@y.com"]]) ∧
    load_first_column_spec [["email"], ["a@x.com"], [""], ["a@x.com"], ["b@y.com"]] =
      ["a@x.com", "b@y.com"] :=
  ⟨(C7_amended_first_column_when_header_unique "email" []
      [["a@x.com"], [""], ["a@x.com"], ["b@y.com"]] (by simp)).1, rfl⟩

/-! ## Claims C1 and C4 -/

/-- C1 (documents the code bug): `process_emails_in_bulk` ends by calling
`self.write_results_to_csv(output_path, results)`, but `EmailVerifier` only
defines `_write_results_to_csv`, so every run whose input loads successfully
raises `AttributeError` at the write step — nothing is written, no summary is
computed, and the exception is not the input-loading `ValueError` the claim
allows. -/
theorem C1_loaded_run_raises_attribute_error (env : Env) (rows : List (List String))
    (enable_smtp : Bool) (timeout : Int) (emails : List String)
    (hload : load_emails_from_csv rows = .ok emails) :
    process_emails_in_bulk env rows enable_smtp timeout none =
      .error (.attributeError "write_results_to_csv") := by
  simp [process_emails_in_bulk, bulk_collected_results, hload]

/-- Witness for C1: a one-row CSV loads fine, yet the run raises
`AttributeError`. -/
theorem C1_witness :
    load_emails_from_csv [["email"], ["a@x.com"]] = .ok ["a@x.com"] ∧
    process_emails_in_bulk envNoMx [["email"], ["a@x.com"]] false 5 none =
      .error (.attributeError "write_results_to_csv") :=
  ⟨rfl, C1_loaded_run_raises_attribute_error envNoMx [["email"], ["a@x.com"]] false 5
    ["a@x.com"] rfl⟩

/-- C4 (documents the code bug): when a `KeyboardInterrupt` arrives during
collection the handler swallows it and control proceeds to the write step,
but that step raises `AttributeError` (`write_results_to_csv` does not
exist), so the partial results are never written and the interrupted run
still fails instead of completing gracefully. -/
theorem C4_interrupted_run_raises_attribute_error (env : Env) (rows : List (List String))
    (enable_smtp : Bool) (timeout : Int) (k : Nat) (emails : List String)
    (hload : load_emails_from_csv rows = .ok emails) :
    process_emails_in_bulk env rows enable_smtp timeout (some k) =
      .error (.attributeError "write_results_to_csv") := by
  simp [process_emails_in_bulk, bulk_collected_results, hload]

/-- Witness for C4: a run over two addresses interrupted after one collected
result raises `AttributeError` instead of writing the partial results. -/
theorem C4_witness :
    process_emails_in_bulk envNoMx [["email"], ["a@x.com"], ["b@y.com"]] false 5 (some 1) =
      .error (.attributeError "write_results_to_csv") :=
  C4_interrupted_run_raises_attribute_error envNoMx [["email"], ["a@x.com"], ["b@y.com"]]
    false 5 1 ["a@x.com", "b@y.com"] rfl

end DataExplorer
